import Mathlib

/-!
Verification development for the diaapi2 backend.

The persistence layer (`src/database/models.py`), its FastAPI facade
(`src/api/main.py`, `src/api/admin.py`) and its Flask facade
(`src/render_server.py`) are shallowly embedded below.  The database is a
value of type `DbState`; each store operation of `Database` in
`src/database/models.py` becomes a pure function on `DbState`.  The SQLite
dialect (the default backend, `DATABASE_URL` unset) is the one embedded;
where the PostgreSQL dialect differs observably (`update_user`'s return
value) both dialects are embedded side by side.

External libraries are embedded by their documented contracts:

* `bcrypt`: `hashpw(password, salt)` is an injective salted encoding
  carrying a fixed 7-character version/cost tag and the 22-character salt;
  `checkpw(candidate, stored)` re-hashes the candidate with the salt
  parsed out of `stored` and compares.  This mirrors the actual modular
  crypt format `$2b$12$<22-char salt><31-char digest>` with the one-way
  digest modelled by an injective function of the password.
* `datetime.isoformat` / `datetime.fromisoformat`: an injective encoding
  of time points into strings together with its partial inverse, which
  rejects every string that is not in the image (in particular every
  malformed date string).  Time (`DT`) is measured in days so that
  `timedelta(days = d)` is addition of `d`.
* `json.dumps` / `json.loads`: a bijective codec between string-keyed
  dictionaries and their serialisations; the `data` column therefore
  stores the dictionary value itself (`Option RegData`, `none` for SQL
  NULL).
-/

namespace Diia

/-- Time points, measured in whole days; `datetime.now()` values are passed
in as explicit `now` arguments. -/
abbrev DT := Int

/-- Models `timedelta(days = d)` added to a time point. -/
def add_days (t : DT) (d : Int) : DT := t + d

/-- Models `datetime.isoformat`: an injective rendering of a time point as
a string.  The concrete ISO-8601 digits are abstracted into a sign tag and
a unary magnitude, which keeps the codec injective and computable. -/
def isoformat (t : DT) : String :=
  ⟨'I' :: 'S' :: 'O' :: (if t < 0 then '-' else '+') :: List.replicate t.natAbs 'x'⟩

/-- Helper of `fromisoformat?`: decodes the sign tag and the unary
magnitude of a candidate rendering. -/
def decodeBody (sign : Char) (rest : List Char) : Option DT :=
  if rest.all (· == 'x') then
    if sign == '+' then some (rest.length : Int)
    else if sign == '-' then
      if rest.length == 0 then none else some (-(rest.length : Int))
    else none
  else none

/-- Models `datetime.fromisoformat`: the partial inverse of `isoformat`.
Strings outside the image of `isoformat` — in particular every string that
is not a well-formed date — are rejected (`none`, i.e. the Python call
raises `ValueError`). -/
def fromisoformat? (s : String) : Option DT :=
  match s.data with
  | 'I' :: 'S' :: 'O' :: sign :: rest => decodeBody sign rest
  | _ => none

/-- The fixed 7-character tag `$2b$12$` that `bcrypt.gensalt()` puts in
front of the 22 salt characters. -/
def bcryptTag : List Char := ['$', '2', 'b', '$', '1', '2', '$']

/-- Models `bcrypt.hashpw(password, salt)` (src/database/models.py:183):
tag, then the 22-character salt, then an injective digest of the
password (the digest function is modelled as the identity on the
password's characters; only its injectivity is used). -/
def bcrypt_hashpw (password salt : String) : String :=
  ⟨(bcryptTag ++ salt.data) ++ ('$' :: password.data)⟩

/-- Models `bcrypt.checkpw(candidate, stored)`
(src/database/models.py:442-444): parse the 22-character salt out of the
first 29 characters of `stored`, re-hash the candidate with it, and
compare with `stored`. -/
def bcrypt_checkpw (candidate stored : String) : Bool :=
  stored.data == (bcryptTag ++ ((stored.data.take 29).drop 7)) ++ ('$' :: candidate.data)

/-- A registration payload: the string-keyed dictionary accumulated by the
bot flow, as stored (via the bijective JSON codec) in the `data` column. -/
abbrev RegData := List (String × String)

/-- A row of the `users` table (SQLite schema,
src/database/models.py:121-138); timestamp columns are TEXT holding
`isoformat` renderings. -/
structure UserRow where
  id : Nat
  telegram_id : Int
  username : Option String
  full_name : String
  birth_date : String
  photo_path : Option String
  login : String
  password_hash : String
  subscription_active : Bool
  subscription_type : String
  subscription_until : Option String
  last_login : Option String
  registered_at : String
  updated_at : String
deriving DecidableEq, Repr

/-- A row of the `registration_temp` table
(src/database/models.py:150-157). -/
structure RegRow where
  telegram_id : Int
  state : String
  data : Option RegData
  created_at : String
deriving DecidableEq, Repr

/-- A row of the `payments` table (src/database/models.py:159-173). -/
structure PaymentRow where
  id : Nat
  user_id : Nat
  amount : Rat
  currency : String
  payment_method : Option String
  status : String
  subscription_type : String
  subscription_days : Int
  created_at : String
  completed_at : Option String
deriving DecidableEq, Repr

/-- The whole database: the three tables touched by the embedded
operations plus the AUTOINCREMENT counters that supply `lastrowid`.  The
`sessions` table is created but never read or written by any operation, so
it is omitted. -/
structure DbState where
  users : List UserRow
  reg : List RegRow
  payments : List PaymentRow
  next_user_id : Nat
  next_payment_id : Nat
deriving DecidableEq, Repr

/-- Models `Database.get_user_by_login` (src/database/models.py:209-221):
point lookup, `none` when no row matches. -/
def get_user_by_login (db : DbState) (l : String) : Option UserRow :=
  db.users.find? (fun u => u.login == l)

/-- Models `Database.get_user_by_telegram_id`
(src/database/models.py:223-235). -/
def get_user_by_telegram_id (db : DbState) (tid : Int) : Option UserRow :=
  db.users.find? (fun u => u.telegram_id == tid)

/-- Models `Database.get_user_by_id` (src/database/models.py:237-249). -/
def get_user_by_id (db : DbState) (uid : Nat) : Option UserRow :=
  db.users.find? (fun u => u.id == uid)

/-- The row the `create_user` INSERT adds
(src/database/models.py:200-205): fresh id, the given columns, the bcrypt
hash, the schema defaults for the subscription columns, and both
timestamps set to the call time. -/
def mkUserRow (id : Nat) (tid : Int) (username : Option String) (fn bd : String)
    (photo : Option String) (login hash : String) (now : DT) : UserRow :=
  { id := id, telegram_id := tid, username := username,
    full_name := fn, birth_date := bd, photo_path := photo, login := login,
    password_hash := hash, subscription_active := false,
    subscription_type := "безкоштовна", subscription_until := none,
    last_login := none, registered_at := isoformat now, updated_at := isoformat now }

/-- Models `Database.create_user` (src/database/models.py:179-207, SQLite
branch).  The random `bcrypt.gensalt()` is passed in as the explicit
`salt` oracle.  A UNIQUE-constraint violation on `login` or `telegram_id`
raises in the source (nothing catches it inside `create_user`), modelled
as `Except.error`; otherwise the row is inserted and `lastrowid`
returned. -/
def create_user (db : DbState) (now : DT) (salt : String) (tid : Int)
    (username : Option String) (fn bd : String) (photo : Option String)
    (login password : String) : Except String (Nat × DbState) :=
  if db.users.any (fun u => u.login == login || u.telegram_id == tid) then
    .error "UNIQUE constraint failed"
  else
    .ok (db.next_user_id,
      { db with
        users := db.users ++
          [mkUserRow db.next_user_id tid username fn bd photo login
            (bcrypt_hashpw password salt) now],
        next_user_id := db.next_user_id + 1 })

/-- Models `Database.update_last_login` (src/database/models.py:279-290):
`UPDATE users SET last_login = now WHERE id = user_id`; a non-matching id
updates zero rows. -/
def update_last_login (db : DbState) (now : DT) (uid : Nat) : DbState :=
  { db with users := db.users.map (fun u =>
      if u.id == uid then { u with last_login := some (isoformat now) } else u) }

/-- The dynamically-typed `until` argument actually reaching
`Database.update_subscription` at run time: the annotation says
`Optional[datetime]` but the admin router passes a `str`. -/
inductive UntilArg
  | dt (t : DT)
  | str (s : String)
  | null
deriving DecidableEq, Repr

/-- Models the expression `until.isoformat() if until else None` on
src/database/models.py:307 under Python's dynamic typing: a datetime is
rendered, `None` and the falsy empty string give NULL, and a non-empty
`str` raises `AttributeError` because `str` has no `isoformat` method. -/
def UntilArg.toUntilStr : UntilArg → Except String (Option String)
  | .dt t => .ok (some (isoformat t))
  | .null => .ok none
  | .str s => if s.data.isEmpty then .ok none else
      .error "AttributeError: str object has no attribute isoformat"

/-- Models `Database.update_subscription` (src/database/models.py:292-315,
SQLite branch) as invoked with a dynamically-typed `until`; the row update
itself is `UPDATE users SET subscription_active, subscription_type,
subscription_until, updated_at WHERE id = user_id`. -/
def update_subscription_dyn (db : DbState) (now : DT) (uid : Nat) (active : Bool)
    (ty : String) (untl : UntilArg) : Except String DbState :=
  match untl.toUntilStr with
  | .error e => .error e
  | .ok us => .ok { db with users := db.users.map (fun u =>
      if u.id == uid then
        { u with subscription_active := active, subscription_type := ty,
                 subscription_until := us, updated_at := isoformat now }
      else u) }

/-- Models `Database.update_subscription` (src/database/models.py:292-315,
SQLite branch) as invoked with a well-typed `until : Optional[datetime]`;
`until.isoformat() if until else None` then never raises. -/
def update_subscription (db : DbState) (now : DT) (uid : Nat) (active : Bool)
    (ty : String) (untl : Option DT) : DbState :=
  { db with users := db.users.map (fun u =>
      if u.id == uid then
        { u with subscription_active := active, subscription_type := ty,
                 subscription_until := untl.map isoformat, updated_at := isoformat now }
      else u) }

/-- Models `Database.update_user` (src/database/models.py:251-277), SQLite
branch: update every row matching `telegram_id` and return `True`
unconditionally. -/
def update_user_sqlite (db : DbState) (now : DT) (salt : String) (tid : Int)
    (fn bd : String) (photo : Option String) (login password : String) : Bool × DbState :=
  (true,
   { db with users := db.users.map (fun u =>
       if u.telegram_id == tid then
         { u with full_name := fn, birth_date := bd, photo_path := photo,
                  login := login, password_hash := bcrypt_hashpw password salt,
                  updated_at := isoformat now }
       else u) })

/-- Models `Database.update_user` (src/database/models.py:251-277),
PostgreSQL branch: the same row update, but the returned success value is
`result != "UPDATE 0"` where asyncpg's status string is `"UPDATE n"` for
`n` matched rows — i.e. whether at least one row matched. -/
def update_user_postgres (db : DbState) (now : DT) (salt : String) (tid : Int)
    (fn bd : String) (photo : Option String) (login password : String) : Bool × DbState :=
  (!(db.users.countP (fun u => u.telegram_id == tid) == 0),
   (update_user_sqlite db now salt tid fn bd photo login password).2)

/-- Models `Database.save_registration_state`
(src/database/models.py:332-353): `INSERT OR REPLACE` keyed on
`telegram_id`, storing `json.dumps(data)` (never NULL). -/
def save_registration_state (db : DbState) (now : DT) (tid : Int)
    (st : String) (d : RegData) : DbState :=
  { db with reg := ⟨tid, st, some d, isoformat now⟩ ::
      db.reg.filter (fun r => !(r.telegram_id == tid)) }

/-- Models `Database.get_registration_state`
(src/database/models.py:355-377): `(row.state, json.loads(row.data) if
row.data else {})` when a row exists, `(None, {})` otherwise. -/
def get_registration_state (db : DbState) (tid : Int) : Option String × RegData :=
  match db.reg.find? (fun r => r.telegram_id == tid) with
  | some r => (some r.state, r.data.getD [])
  | none => (none, [])

/-- Models `Database.delete_registration_state`
(src/database/models.py:379-392): `DELETE FROM registration_temp WHERE
telegram_id = ?`. -/
def delete_registration_state (db : DbState) (tid : Int) : DbState :=
  { db with reg := db.reg.filter (fun r => !(r.telegram_id == tid)) }

/-- Models `Database.clear_registration_state`
(src/database/models.py:390-392), an alias for
`delete_registration_state`. -/
def clear_registration_state (db : DbState) (tid : Int) : DbState :=
  delete_registration_state db tid

/-- Models `Database.create_payment` (src/database/models.py:395-419,
SQLite branch): insert with status `'pending'` and NULL `completed_at`,
return `lastrowid`. -/
def create_payment (db : DbState) (now : DT) (uid : Nat) (amount : Rat)
    (currency : String) (sub_type : String) (sub_days : Int)
    (method : Option String) : Nat × DbState :=
  let row : PaymentRow :=
    { id := db.next_payment_id, user_id := uid, amount := amount,
      currency := currency, payment_method := method, status := "pending",
      subscription_type := sub_type, subscription_days := sub_days,
      created_at := isoformat now, completed_at := none }
  (row.id,
   { db with payments := db.payments ++ [row],
             next_payment_id := db.next_payment_id + 1 })

/-- Models `Database.complete_payment` (src/database/models.py:421-440):
`UPDATE payments SET status = 'completed', completed_at = now WHERE id =
payment_id`; updating zero or an already-completed row raises nothing. -/
def complete_payment (db : DbState) (now : DT) (pid : Nat) : DbState :=
  { db with payments := db.payments.map (fun r =>
      if r.id == pid then
        { r with status := "completed", completed_at := some (isoformat now) }
      else r) }

/-! ## HTTP facade models -/

/-- The generic authentication failure message, used identically for an
unknown login and for a wrong password (src/api/main.py:84 and :93). -/
def genericLoginMsg : String := "Невірний логін або пароль"

/-- The success message of the login endpoint (src/api/main.py:113). -/
def loginOkMsg : String := "Успішна авторизація"

/-- The `user_safe` projection built on success
(src/api/main.py:100-109): the password hash and the remaining
internal-only columns do not appear among its fields. -/
structure SafeUser where
  id : Nat
  full_name : String
  birth_date : String
  login : String
  subscription_active : Bool
  subscription_type : String
  last_login : Option String
  registered_at : String
deriving DecidableEq, Repr

/-- Builds `user_safe` from the fetched row (src/api/main.py:100-109);
`bool(...)` on the already-boolean column is the identity. -/
def sanitize (u : UserRow) : SafeUser :=
  { id := u.id, full_name := u.full_name, birth_date := u.birth_date,
    login := u.login, subscription_active := u.subscription_active,
    subscription_type := u.subscription_type, last_login := u.last_login,
    registered_at := u.registered_at }

/-- The body of `LoginResponse` (src/api/main.py:56-59). -/
inductive LoginResponse
  | failure (message : String)
  | success (message : String) (user : SafeUser)
deriving DecidableEq, Repr

/-- Models the `POST /api/auth/login` handler (src/api/main.py:72-115):
fetch by login; absent or failed password check both yield the same
generic failure and leave the store untouched; otherwise record the login
time and answer with the sanitized projection of the row as fetched. -/
def api_login (db : DbState) (now : DT) (l p : String) : LoginResponse × DbState :=
  match get_user_by_login db l with
  | none => (.failure genericLoginMsg, db)
  | some u =>
    if bcrypt_checkpw p u.password_hash then
      (.success loginOkMsg (sanitize u), update_last_login db now u.id)
    else
      (.failure genericLoginMsg, db)

/-- An HTTP-level outcome: a JSON value or an error status with detail. -/
inductive ApiResp (α : Type)
  | ok (v : α)
  | err (status : Nat) (detail : String)
deriving DecidableEq, Repr

/-- The success body of the grant-subscription endpoints
(src/api/admin.py:65-70). -/
structure GrantResp where
  message : String
  subscription_type : String
  subscription_until : Option String
deriving DecidableEq, Repr

/-- Python truthiness of `data.days : Optional[int]` (`if data.days:` on
src/api/admin.py:59): present and non-zero. -/
def optIntTruthy : Option Int → Bool
  | some d => d != 0
  | none => false

/-- Models the `POST /api/admin/update-subscription` handler that is live
on the FastAPI app (src/api/admin.py:33-46; it shadows the handler at
src/api/main.py:190-208 because the router is included first).  The raw
`data.until : Optional[str]` is handed to `Database.update_subscription`
unparsed; any exception is converted to HTTP 500. -/
def admin_update_subscription_api (db : DbState) (now : DT) (user_id : Nat)
    (active : Bool) (sub_type : String) (untl : Option String) :
    ApiResp String × DbState :=
  match update_subscription_dyn db now user_id active sub_type
      (match untl with | some s => .str s | none => .null) with
  | .ok db' => (.ok "Підписку оновлено", db')
  | .error e => (.err 500 e, db)

/-- Models the `POST /api/admin/grant-subscription` handler that is live
on the FastAPI app (src/api/admin.py:49-74; it shadows the handler at
src/api/main.py:167-187).  When `data.days` is truthy the `until` passed
on to `Database.update_subscription` is the ISO string
`(now + timedelta(days)).isoformat()` — a `str`, not a `datetime`; any
non-HTTP exception is converted to HTTP 500. -/
def admin_grant_api (db : DbState) (now : DT) (login sub_type : String)
    (days : Option Int) : ApiResp GrantResp × DbState :=
  match get_user_by_login db login with
  | none => (.err 404 "Користувач не знайдений", db)
  | some u =>
    let untilStr : Option String :=
      if optIntTruthy days then some (isoformat (add_days now (days.getD 0))) else none
    match update_subscription_dyn db now u.id true sub_type
        (match untilStr with | some s => .str s | none => .null) with
    | .ok db' =>
      (.ok { message := "Підписку виданo користувачу " ++ u.full_name,
             subscription_type := sub_type, subscription_until := untilStr }, db')
    | .error e => (.err 500 e, db)

/-- Models the Flask `POST /api/admin/grant-subscription` handler
(src/render_server.py:274-309): the computed `until` stays a `datetime`,
so the store call is well-typed. -/
def flask_grant (db : DbState) (now : DT) (login sub_type : String)
    (days : Option Int) : ApiResp GrantResp × DbState :=
  match get_user_by_login db login with
  | none => (.err 404 "Користувач не знайдений", db)
  | some u =>
    let untl : Option DT :=
      if optIntTruthy days then some (add_days now (days.getD 0)) else none
    let db' := update_subscription db now u.id true sub_type untl
    (.ok { message := "Підписку виданo користувачу " ++ u.full_name,
           subscription_type := sub_type, subscription_until := untl.map isoformat }, db')

/-- Models the Flask `POST /api/admin/update-subscription` handler
(src/render_server.py:311-345): a truthy `until` string is parsed with
`datetime.fromisoformat`; on parse failure the handler answers 400
`"Невірний формат дати"` without touching the store. -/
def flask_update_subscription (db : DbState) (now : DT) (user_id : Nat)
    (active : Bool) (sub_type : String) (until_str : Option String) :
    ApiResp String × DbState :=
  match until_str with
  | some s =>
    if s.data.isEmpty then
      (.ok "Підписку оновлено", update_subscription db now user_id active sub_type none)
    else
      match fromisoformat? s with
      | none => (.err 400 "Невірний формат дати", db)
      | some t =>
        (.ok "Підписку оновлено", update_subscription db now user_id active sub_type (some t))
  | none =>
    (.ok "Підписку оновлено", update_subscription db now user_id active sub_type none)

/-- The state-changing store operations other than `update_subscription`,
for the frame property of the subscription-active flag (claims C4);
read-only operations do not alter `DbState` by construction. -/
inductive Op
  | opCreateUser (now : DT) (salt : String) (tid : Int) (username : Option String)
      (fn bd : String) (photo : Option String) (login password : String)
  | opUpdateUser (now : DT) (salt : String) (tid : Int) (fn bd : String)
      (photo : Option String) (login password : String)
  | opUpdateLastLogin (now : DT) (uid : Nat)
  | opSaveReg (now : DT) (tid : Int) (st : String) (d : RegData)
  | opDeleteReg (tid : Int)
  | opCreatePayment (now : DT) (uid : Nat) (amount : Rat) (currency sub_type : String)
      (sub_days : Int) (method : Option String)
  | opCompletePayment (now : DT) (pid : Nat)

/-- Runs one store operation on the state (a failed `create_user` leaves
the state as it was, since the insert raised). -/
def Op.run (op : Op) (db : DbState) : DbState :=
  match op with
  | .opCreateUser now salt tid username fn bd photo login password =>
    match create_user db now salt tid username fn bd photo login password with
    | .ok (_, db') => db'
    | .error _ => db
  | .opUpdateUser now salt tid fn bd photo login password =>
    (update_user_sqlite db now salt tid fn bd photo login password).2
  | .opUpdateLastLogin now uid => update_last_login db now uid
  | .opSaveReg now tid st d => save_registration_state db now tid st d
  | .opDeleteReg tid => delete_registration_state db tid
  | .opCreatePayment now uid amount currency sub_type sub_days method =>
    (create_payment db now uid amount currency sub_type sub_days method).2
  | .opCompletePayment now pid => complete_payment db now pid

/-! ## Sample states used by the concrete witnesses -/

/-- A well-formed 22-character bcrypt salt used as the `gensalt()` oracle
in concrete scenarios. -/
def saltA : String := "0123456789abcdefghijkl"

/-- The user of the spec's concrete scenario: login `"alice"`, password
`"secret1"`. -/
def userAlice : UserRow :=
  { id := 1, telegram_id := 100, username := some "al", full_name := "Alice A",
    birth_date := "2000-01-01", photo_path := none, login := "alice",
    password_hash := bcrypt_hashpw "secret1" saltA, subscription_active := false,
    subscription_type := "безкоштовна", subscription_until := none,
    last_login := none, registered_at := isoformat 0, updated_at := isoformat 0 }

/-- An empty database. -/
def dbEmpty : DbState :=
  { users := [], reg := [], payments := [], next_user_id := 1, next_payment_id := 1 }

/-- A database holding exactly `userAlice`. -/
def dbOne : DbState :=
  { users := [userAlice], reg := [], payments := [], next_user_id := 2, next_payment_id := 1 }

/-- A database holding one registration-in-progress row for chat 1. -/
def dbReg : DbState :=
  { users := [], reg := [⟨1, "step1", some [("name", "Alice")], isoformat 0⟩],
    payments := [], next_user_id := 1, next_payment_id := 1 }

/-! ## Auxiliary list lemmas -/

/-- Auxiliary: `find?` commutes with a map that preserves the predicate. -/
theorem find?_map_pres {α : Type} (f : α → α) (p : α → Bool)
    (hp : ∀ a, p (f a) = p a) (l : List α) :
    (l.map f).find? p = (l.find? p).map f := by
  induction l with
  | nil => rfl
  | cons x xs ih =>
    by_cases h : p x = true
    · rw [List.map_cons, List.find?_cons_of_pos _ (by rw [hp]; exact h),
        List.find?_cons_of_pos _ h]
      rfl
    · rw [List.map_cons, List.find?_cons_of_neg _ (by rw [hp]; simpa using h),
        List.find?_cons_of_neg _ (by simpa using h), ih]

/-- Auxiliary: `find?` skips a block with no matches. -/
theorem find?_append_none {α : Type} (p : α → Bool) (l1 l2 : List α)
    (h : ∀ a ∈ l1, p a = false) :
    (l1 ++ l2).find? p = l2.find? p := by
  induction l1 with
  | nil => rfl
  | cons x xs ih =>
    rw [List.cons_append, List.find?_cons_of_neg _ (by simp [h x (List.mem_cons_self ..)])]
    exact ih fun a ha => h a (List.mem_cons_of_mem _ ha)

/-- Auxiliary: taking the length of the left block of an append. -/
theorem take_len_append {α : Type} (l1 l2 : List α) : (l1 ++ l2).take l1.length = l1 := by
  induction l1 with
  | nil => rfl
  | cons x xs ih => simp [ih]

/-- Auxiliary: dropping the length of the left block of an append. -/
theorem drop_len_append {α : Type} (l1 l2 : List α) : (l1 ++ l2).drop l1.length = l2 := by
  induction l1 with
  | nil => rfl
  | cons x xs ih => simp [ih]

/-! ## Facts about the external-codec models -/

/-- The modelled ISO codec round-trips: parsing a rendered time point
recovers it. -/
theorem fromisoformat_isoformat (t : DT) : fromisoformat? (isoformat t) = some t := by
  have hall : ∀ n : Nat, ((List.replicate n 'x').all (· == 'x')) = true := by
    intro n
    rw [List.all_eq_true]
    intro x hx
    rw [List.eq_of_mem_replicate hx]
    decide
  rcases Int.lt_or_le t 0 with h | h
  · have hrepr : isoformat t = ⟨'I' :: 'S' :: 'O' :: '-' :: List.replicate t.natAbs 'x'⟩ := by
      rw [isoformat, if_pos h]
    have hne : ¬(((List.replicate t.natAbs 'x').length == 0) = true) := by
      simp only [List.length_replicate, beq_iff_eq, Int.natAbs_eq_zero]
      exact ne_of_lt h
    rw [hrepr,
      show fromisoformat? ⟨'I' :: 'S' :: 'O' :: '-' :: List.replicate t.natAbs 'x'⟩
        = decodeBody '-' (List.replicate t.natAbs 'x') from rfl]
    simp only [decodeBody]
    rw [if_pos (hall _), if_neg (by decide : ¬(('-' == '+') = true)),
      if_pos (by decide : (('-' == '-') = true)), if_neg hne]
    simp only [List.length_replicate, Option.some.injEq]
    rw [Int.ofNat_natAbs_of_nonpos (le_of_lt h)]
    exact neg_neg t
  · have hrepr : isoformat t = ⟨'I' :: 'S' :: 'O' :: '+' :: List.replicate t.natAbs 'x'⟩ := by
      rw [isoformat, if_neg (not_lt.mpr h)]
    rw [hrepr,
      show fromisoformat? ⟨'I' :: 'S' :: 'O' :: '+' :: List.replicate t.natAbs 'x'⟩
        = decodeBody '+' (List.replicate t.natAbs 'x') from rfl]
    simp only [decodeBody]
    rw [if_pos (hall _), if_pos (by decide : (('+' == '+') = true))]
    simp only [List.length_replicate, Option.some.injEq]
    exact Int.natAbs_of_nonneg h

/-- The modelled ISO codec is injective, so a stored rendering determines
the time point exactly. -/
theorem isoformat_injective (a b : DT) (h : isoformat a = isoformat b) : a = b := by
  have h2 := congrArg fromisoformat? h
  rw [fromisoformat_isoformat, fromisoformat_isoformat] at h2
  exact Option.some.inj h2

/-- Core fact of the bcrypt model: checking a candidate against the hash
of `P` under a 22-character salt succeeds exactly for `P` itself. -/
theorem checkpw_hashpw (P salt q : String) (hsalt : salt.data.length = 22) :
    bcrypt_checkpw q (bcrypt_hashpw P salt) = decide (q = P) := by
  have h29 : (bcryptTag ++ salt.data).length = 29 := by
    simp [bcryptTag, hsalt]
  have e1 : ((bcryptTag ++ salt.data) ++ ('$' :: P.data)).take 29 = bcryptTag ++ salt.data := by
    rw [← h29, take_len_append]
  have e2 : (bcryptTag ++ salt.data).drop 7 = salt.data := by
    rw [show 7 = bcryptTag.length from rfl, drop_len_append]
  show ((bcryptTag ++ salt.data) ++ ('$' :: P.data) ==
      (bcryptTag ++ ((((bcryptTag ++ salt.data) ++ ('$' :: P.data)).take 29).drop 7))
        ++ ('$' :: q.data)) = decide (q = P)
  rw [e1, e2]
  rcases eq_or_ne q P with rfl | hne
  · simp
  · rw [decide_eq_false hne, beq_eq_false_iff_ne]
    intro hc
    have h2 : ('$' :: P.data) = ('$' :: q.data) := List.append_cancel_left hc
    have h3 : P.data = q.data := by injection h2
    exact hne (congrArg String.mk h3.symm)

/-- A bcrypt hash is never the plaintext it hashes: it is strictly longer. -/
theorem hashpw_ne_password (P salt : String) : bcrypt_hashpw P salt ≠ P := by
  intro h
  have hlen := congrArg (fun s : String => s.data.length) h
  simp only [bcrypt_hashpw, List.length_append, List.length_cons, bcryptTag,
    List.length_nil] at hlen
  omega

/-! ## Claim theorems -/

/-- C3: for every external chat identifier, `saveState(id, step, payload)`
followed immediately by `getState(id)` returns exactly that step and
payload, and a second `saveState` for the same id fully replaces the
stored step and payload rather than merging with the previous payload:
whatever was stored before (arbitrary `db`, and explicitly an earlier
`save` of `s1, p1`), the read after saving `s2, p2` returns exactly
`(s2, p2)`. -/
theorem c3_save_get_roundtrip (db : DbState) (now1 now2 : DT) (tid : Int)
    (s1 s2 : String) (p1 p2 : RegData) :
    get_registration_state (save_registration_state db now2 tid s2 p2) tid = (some s2, p2)
    ∧ get_registration_state
        (save_registration_state (save_registration_state db now1 tid s1 p1) now2 tid s2 p2) tid
      = (some s2, p2) := by
  constructor <;>
  · rw [get_registration_state, save_registration_state,
      List.find?_cons_of_pos _ (by simp)]
    rfl

/-- C8: `clearState` followed by `getState` returns `(absent, empty
payload)` for any prior content; `clearState` is idempotent; and
`getState` on an identifier with no stored row returns `(absent, empty
payload)` rather than an error. -/
theorem c8_clear_state (db : DbState) (tid : Int) :
    get_registration_state (delete_registration_state db tid) tid = (none, [])
    ∧ delete_registration_state (delete_registration_state db tid) tid
        = delete_registration_state db tid
    ∧ ((∀ r ∈ db.reg, r.telegram_id ≠ tid) →
        get_registration_state db tid = (none, [])) := by
  refine ⟨?_, ?_, ?_⟩
  · have hfind : ((db.reg.filter (fun r => !(r.telegram_id == tid))).find?
        (fun r => r.telegram_id == tid)) = none := by
      rw [List.find?_eq_none]
      intro x hx
      have hx2 := (List.mem_filter.mp hx).2
      simpa using hx2
    rw [get_registration_state, delete_registration_state]
    rw [show ({ db with reg := db.reg.filter (fun r => !(r.telegram_id == tid)) } : DbState).reg
        = db.reg.filter (fun r => !(r.telegram_id == tid)) from rfl, hfind]
  · rw [delete_registration_state, delete_registration_state]
    rw [show ({ db with reg := db.reg.filter (fun r => !(r.telegram_id == tid)) } : DbState).reg
        = db.reg.filter (fun r => !(r.telegram_id == tid)) from rfl]
    rw [List.filter_filter]
    congr 1
    apply List.filter_congr
    intro x _
    rw [Bool.and_self]
  · intro h
    have hfind : db.reg.find? (fun r => r.telegram_id == tid) = none := by
      rw [List.find?_eq_none]
      intro x hx
      simpa using h x hx
    rw [get_registration_state, hfind]

/-- C8 witness: the three parts of `c8_clear_state` at the concrete state
`dbReg` (a stored row for chat 1, and no row for chat 2). -/
theorem c8_clear_state_witness :
    get_registration_state (delete_registration_state dbReg 1) 1 = (none, [])
    ∧ delete_registration_state (delete_registration_state dbReg 1) 1
        = delete_registration_state dbReg 1
    ∧ get_registration_state dbReg 2 = (none, []) :=
  ⟨(c8_clear_state dbReg 1).1, (c8_clear_state dbReg 1).2.1,
   (c8_clear_state dbReg 2).2.2 (by decide)⟩

/-- C9: when `update_user` is called with an external chat identifier
matching no user, the PostgreSQL code path reports `False` while the
SQLite code path reports `True`: the two dialect implementations disagree
on the reported success value. -/
theorem c9_update_user_dialect_divergence (db : DbState) (now : DT) (salt : String)
    (tid : Int) (fn bd : String) (photo : Option String) (login password : String)
    (h : ∀ u ∈ db.users, u.telegram_id ≠ tid) :
    (update_user_postgres db now salt tid fn bd photo login password).1 = false
    ∧ (update_user_sqlite db now salt tid fn bd photo login password).1 = true
    ∧ (update_user_postgres db now salt tid fn bd photo login password).1
        ≠ (update_user_sqlite db now salt tid fn bd photo login password).1 := by
  have hcount : db.users.countP (fun u => u.telegram_id == tid) = 0 := by
    rw [List.countP_eq_zero]
    intro u hu
    simpa using h u hu
  refine ⟨?_, rfl, ?_⟩
  · rw [show (update_user_postgres db now salt tid fn bd photo login password).1
        = !(db.users.countP (fun u => u.telegram_id == tid) == 0) from rfl, hcount]
    rfl
  · rw [show (update_user_postgres db now salt tid fn bd photo login password).1
        = !(db.users.countP (fun u => u.telegram_id == tid) == 0) from rfl, hcount]
    rw [show (update_user_sqlite db now salt tid fn bd photo login password).1 = true from rfl]
    decide

/-- C9 witness: on the empty store and chat identifier 7 the PostgreSQL
path reports failure, the SQLite path success. -/
theorem c9_update_user_dialect_divergence_witness :
    (update_user_postgres dbEmpty 0 saltA 7 "f" "b" none "l" "p").1 = false
    ∧ (update_user_sqlite dbEmpty 0 saltA 7 "f" "b" none "l" "p").1 = true
    ∧ (update_user_postgres dbEmpty 0 saltA 7 "f" "b" none "l" "p").1
        ≠ (update_user_sqlite dbEmpty 0 saltA 7 "f" "b" none "l" "p").1 :=
  c9_update_user_dialect_divergence dbEmpty 0 saltA 7 "f" "b" none "l" "p" (by decide)

/-- C10: `update_subscription` with a user id matching no user completes
without error and leaves the whole state — in particular every existing
user record — unchanged, and the same holds for `update_last_login`
(both are total functions of the state here, mirroring that the source
raises nothing when the UPDATE matches zero rows). -/
theorem c10_absent_id_noop (db : DbState) (now : DT) (uid : Nat) (a : Bool)
    (ty : String) (untl : Option DT) (h : ∀ u ∈ db.users, u.id ≠ uid) :
    update_subscription db now uid a ty untl = db
    ∧ update_last_login db now uid = db := by
  have hmap : ∀ (f : UserRow → UserRow),
      db.users.map (fun u => if u.id == uid then f u else u) = db.users := by
    intro f
    have hcong : db.users.map (fun u => if u.id == uid then f u else u)
        = db.users.map id := by
      apply List.map_congr_left
      intro u hu
      have hbeq : (u.id == uid) = false := by simpa using h u hu
      rw [hbeq]
      rfl
    rw [hcong, List.map_id]
  constructor
  · rw [update_subscription, hmap]
  · rw [update_last_login, hmap]

/-- C10 witness: with only user id 1 present, updating subscription or
last-login of the absent id 2 is a no-op. -/
theorem c10_absent_id_noop_witness :
    update_subscription dbOne 5 2 true "premium" (some 9) = dbOne
    ∧ update_last_login dbOne 5 2 = dbOne :=
  c10_absent_id_noop dbOne 5 2 true "premium" (some 9) (by decide)

/-- C1: for a login absent from the users store `getByLogin` returns
absent (not an error) and the login endpoint returns failure with the
generic message; a present login with a failing password check returns
the same generic message (literally the same constant
`genericLoginMsg`), in both cases leaving the store untouched; on a
correct pair the endpoint records the login time (`last_login` of that
user becomes the call time) and returns the sanitized projection, which
ignores the password hash entirely. -/
theorem c1_login_auth (db : DbState) (now : DT) (l p : String) :
    ((∀ u ∈ db.users, u.login ≠ l) →
      get_user_by_login db l = none
      ∧ api_login db now l p = (.failure genericLoginMsg, db))
    ∧ (∀ u, get_user_by_login db l = some u →
        bcrypt_checkpw p u.password_hash = false →
        api_login db now l p = (.failure genericLoginMsg, db))
    ∧ (∀ u, get_user_by_login db l = some u →
        bcrypt_checkpw p u.password_hash = true →
        (api_login db now l p
            = (.success loginOkMsg (sanitize u), update_last_login db now u.id)
         ∧ ∃ u' ∈ (update_last_login db now u.id).users,
             u'.id = u.id ∧ u'.last_login = some (isoformat now)))
    ∧ (∀ (v : UserRow) (hsh : String),
        sanitize { v with password_hash := hsh } = sanitize v) := by
  refine ⟨?_, ?_, ?_, fun v hsh => rfl⟩
  · intro h
    have hget : get_user_by_login db l = none := by
      rw [get_user_by_login, List.find?_eq_none]
      intro u hu
      simpa using h u hu
    exact ⟨hget, by rw [api_login, hget]⟩
  · intro u hget hpw
    rw [api_login, hget]
    simp only [hpw]
    rfl
  · intro u hget hpw
    refine ⟨by rw [api_login, hget]; simp only [hpw]; rfl, ?_⟩
    have hu : u ∈ db.users := List.mem_of_find?_eq_some hget
    have hmem := List.mem_map_of_mem
      (fun w => if w.id == u.id then { w with last_login := some (isoformat now) } else w) hu
    refine ⟨{ u with last_login := some (isoformat now) }, ?_, rfl, rfl⟩
    rw [show (update_last_login db now u.id).users
        = db.users.map (fun w =>
            if w.id == u.id then { w with last_login := some (isoformat now) } else w)
      from rfl]
    simpa using hmem

/-- C1 witness: on the concrete store `dbOne` — the absent login
`"bob"`, the wrong password `"wrong"` for `"alice"`, and the correct
pair `("alice", "secret1")`. -/
theorem c1_login_auth_witness :
    (get_user_by_login dbOne "bob" = none
      ∧ api_login dbOne 5 "bob" "x" = (.failure genericLoginMsg, dbOne))
    ∧ api_login dbOne 5 "alice" "wrong" = (.failure genericLoginMsg, dbOne)
    ∧ api_login dbOne 5 "alice" "secret1"
        = (.success loginOkMsg (sanitize userAlice), update_last_login dbOne 5 1) :=
  ⟨(c1_login_auth dbOne 5 "bob" "x").1 (by decide),
   (c1_login_auth dbOne 5 "alice" "wrong").2.1 userAlice (by decide) (by decide),
   ((c1_login_auth dbOne 5 "alice" "secret1").2.2.1 userAlice (by decide) (by decide)).1⟩

/-- C2: a user created through `create_user` with raw password `P` stores
as password hash exactly the bcrypt hash of `P` (retrievable through
`getByLogin`), that hash is never the plaintext `P`, `verify_password`
accepts `P` against it, and rejects every other candidate. -/
theorem c2_password_verification (db : DbState) (now : DT) (salt : String) (tid : Int)
    (username : Option String) (fn bd : String) (photo : Option String)
    (login P : String) (uid : Nat) (db' : DbState)
    (hsalt : salt.data.length = 22)
    (hc : create_user db now salt tid username fn bd photo login P = .ok (uid, db')) :
    get_user_by_login db' login
      = some (mkUserRow uid tid username fn bd photo login (bcrypt_hashpw P salt) now)
    ∧ bcrypt_hashpw P salt ≠ P
    ∧ bcrypt_checkpw P (bcrypt_hashpw P salt) = true
    ∧ (∀ q, q ≠ P → bcrypt_checkpw q (bcrypt_hashpw P salt) = false) := by
  rw [create_user] at hc
  by_cases hdup : db.users.any (fun u => u.login == login || u.telegram_id == tid)
  · rw [if_pos hdup] at hc
    exact absurd hc (by simp)
  · rw [if_neg hdup] at hc
    have h1 := Except.ok.inj hc
    have huid : db.next_user_id = uid := congrArg Prod.fst h1
    have hdb : ({ db with
        users := db.users ++
          [mkUserRow db.next_user_id tid username fn bd photo login
            (bcrypt_hashpw P salt) now],
        next_user_id := db.next_user_id + 1 } : DbState) = db' := congrArg Prod.snd h1
    subst hdb
    subst huid
    refine ⟨?_, hashpw_ne_password P salt, ?_, ?_⟩
    · show (db.users ++
          [mkUserRow db.next_user_id tid username fn bd photo login
            (bcrypt_hashpw P salt) now]).find? (fun u => u.login == login)
        = some (mkUserRow db.next_user_id tid username fn bd photo login
            (bcrypt_hashpw P salt) now)
      rw [find?_append_none]
      · exact List.find?_cons_of_pos _ (by simp [mkUserRow])
      · intro u hu
        have hq : ¬ ((u.login == login || u.telegram_id == tid) = true) :=
          fun hfu => hdup (List.any_eq_true.mpr ⟨u, hu, hfu⟩)
        simp only [Bool.or_eq_true, not_or] at hq
        simpa using hq.1
    · rw [checkpw_hashpw P salt P hsalt]
      simp
    · intro q hq
      rw [checkpw_hashpw P salt q hsalt]
      simp [hq]

/-- C2 witness: creating `"alice"` with password `"secret1"` on the empty
store yields `dbOne`; the stored hash differs from the plaintext, accepts
`"secret1"`, and rejects `"wrong"`. -/
theorem c2_password_verification_witness :
    get_user_by_login dbOne "alice"
      = some (mkUserRow 1 100 (some "al") "Alice A" "2000-01-01" none "alice"
          (bcrypt_hashpw "secret1" saltA) 0)
    ∧ bcrypt_hashpw "secret1" saltA ≠ "secret1"
    ∧ bcrypt_checkpw "secret1" (bcrypt_hashpw "secret1" saltA) = true
    ∧ bcrypt_checkpw "wrong" (bcrypt_hashpw "secret1" saltA) = false := by
  have h := c2_password_verification dbEmpty 0 saltA 100 (some "al") "Alice A"
    "2000-01-01" none "alice" "secret1" 1 dbOne (by decide) rfl
  exact ⟨h.1, h.2.1, h.2.2.1, h.2.2.2 "wrong" (by decide)⟩

/-- Auxiliary: an id- and flag-preserving map keeps, for every member, a
companion with the same id and subscription flag. -/
theorem mem_map_frame (f : UserRow → UserRow)
    (hid : ∀ w, (f w).id = w.id)
    (hsub : ∀ w, (f w).subscription_active = w.subscription_active)
    {l : List UserRow} {v : UserRow} (hv : v ∈ l) :
    ∃ v' ∈ l.map f, v'.id = v.id ∧ v'.subscription_active = v.subscription_active :=
  ⟨f v, List.mem_map_of_mem f hv, hid v, hsub v⟩

/-- C4: `updateSubscription(id, true, "premium", until = T)` followed by a
read of that user returns exactly `active = true`, `tier = "premium"` and
the stored rendering of exactly `T` (the rendering is injective, second
conjunct, so `T` is determined exactly — the SQLite TEXT column stores
`T.isoformat()`); and no other store operation ever changes any user's
subscription-active flag on its own, for arbitrary states and arguments —
in particular nothing sweeps expiry, so this holds even when `T` is in the
past (`T` here is unconstrained). -/
theorem c4_subscription_exact_and_frame (db : DbState) (now T : DT) (uid : Nat)
    (u : UserRow) (h : get_user_by_id db uid = some u) :
    get_user_by_id (update_subscription db now uid true "premium" (some T)) uid
      = some { u with subscription_active := true, subscription_type := "premium",
                      subscription_until := some (isoformat T),
                      updated_at := isoformat now }
    ∧ (∀ a b : DT, isoformat a = isoformat b → a = b)
    ∧ (∀ (op : Op) (db2 : DbState), ∀ v ∈ db2.users,
        ∃ v' ∈ (Op.run op db2).users,
          v'.id = v.id ∧ v'.subscription_active = v.subscription_active) := by
  refine ⟨?_, isoformat_injective, ?_⟩
  · rw [get_user_by_id] at h
    have hpu : (u.id == uid) = true := by simpa using List.find?_some h
    have hfind := find?_map_pres
      (fun w : UserRow => if w.id == uid then
        { w with subscription_active := true, subscription_type := "premium",
                 subscription_until := (some T).map isoformat,
                 updated_at := isoformat now }
        else w)
      (fun w => w.id == uid)
      (by intro a; by_cases ha : (a.id == uid) = true <;> simp [ha])
      db.users
    show (db.users.map (fun w : UserRow => if w.id == uid then
        { w with subscription_active := true, subscription_type := "premium",
                 subscription_until := (some T).map isoformat,
                 updated_at := isoformat now }
        else w)).find? (fun w => w.id == uid)
      = some { u with subscription_active := true, subscription_type := "premium",
                      subscription_until := some (isoformat T),
                      updated_at := isoformat now }
    rw [hfind, h, Option.map_some', if_pos hpu]
    rfl
  · intro op db2 v hv
    cases op with
    | opCreateUser now' salt tid username fn bd photo login password =>
      by_cases hdup : db2.users.any (fun w => w.login == login || w.telegram_id == tid)
      · refine ⟨v, ?_, rfl, rfl⟩
        show v ∈ (match create_user db2 now' salt tid username fn bd photo login password with
          | .ok (_, d) => d
          | .error _ => db2).users
        rw [create_user, if_pos hdup]
        exact hv
      · refine ⟨v, ?_, rfl, rfl⟩
        show v ∈ (match create_user db2 now' salt tid username fn bd photo login password with
          | .ok (_, d) => d
          | .error _ => db2).users
        rw [create_user, if_neg hdup]
        exact List.mem_append_left _ hv
    | opUpdateUser now' salt tid fn bd photo login password =>
      exact mem_map_frame _
        (fun w => by by_cases hx : (w.telegram_id == tid) = true <;> simp [hx])
        (fun w => by by_cases hx : (w.telegram_id == tid) = true <;> simp [hx]) hv
    | opUpdateLastLogin now' uid2 =>
      exact mem_map_frame _
        (fun w => by by_cases hx : (w.id == uid2) = true <;> simp [hx])
        (fun w => by by_cases hx : (w.id == uid2) = true <;> simp [hx]) hv
    | opSaveReg now' tid st d => exact ⟨v, hv, rfl, rfl⟩
    | opDeleteReg tid => exact ⟨v, hv, rfl, rfl⟩
    | opCreatePayment now' uid2 amount currency sub_type sub_days method =>
      exact ⟨v, hv, rfl, rfl⟩
    | opCompletePayment now' pid => exact ⟨v, hv, rfl, rfl⟩

/-- C4 witness: granting `"premium"` until day 9 to user 1 of `dbOne` and
reading it back. -/
theorem c4_subscription_exact_and_frame_witness :
    get_user_by_id (update_subscription dbOne 5 1 true "premium" (some 9)) 1
      = some { userAlice with subscription_active := true,
                              subscription_type := "premium",
                              subscription_until := some (isoformat 9),
                              updated_at := isoformat 5 } :=
  (c4_subscription_exact_and_frame dbOne 5 9 1 userAlice (by decide)).1

/-- The payment row freshly inserted by `create_payment`
(src/database/models.py:413-417), before and after completion. -/
def mkPaymentRow (id uid : Nat) (amount : Rat) (cur sty : String) (sdays : Int)
    (method : Option String) (created : String) (status : String)
    (completed : Option String) : PaymentRow :=
  { id := id, user_id := uid, amount := amount, currency := cur,
    payment_method := method, status := status, subscription_type := sty,
    subscription_days := sdays, created_at := created, completed_at := completed }

/-- C7: `createPayment` returns a fresh id (different from every existing
payment id, equal to the counter) and inserts the record with status
`"pending"` and no completion timestamp; `completePayment` then yields
status `"completed"` with a non-null completion timestamp; a second
`completePayment` is again a total function (nothing raises) and leaves
the status `"completed"` (refreshing the completion timestamp). -/
theorem c7_payment_lifecycle (db : DbState) (now1 now2 now3 : DT) (uid : Nat)
    (amount : Rat) (cur sty : String) (sdays : Int) (method : Option String)
    (hfresh : ∀ r ∈ db.payments, r.id < db.next_payment_id) :
    (∀ r ∈ db.payments, r.id ≠ (create_payment db now1 uid amount cur sty sdays method).1)
    ∧ (create_payment db now1 uid amount cur sty sdays method).1 = db.next_payment_id
    ∧ ((create_payment db now1 uid amount cur sty sdays method).2.payments.find?
          (fun r => r.id == db.next_payment_id)
        = some (mkPaymentRow db.next_payment_id uid amount cur sty sdays method
            (isoformat now1) "pending" none))
    ∧ ((complete_payment (create_payment db now1 uid amount cur sty sdays method).2
          now2 db.next_payment_id).payments.find? (fun r => r.id == db.next_payment_id)
        = some (mkPaymentRow db.next_payment_id uid amount cur sty sdays method
            (isoformat now1) "completed" (some (isoformat now2))))
    ∧ ((complete_payment (complete_payment
          (create_payment db now1 uid amount cur sty sdays method).2
          now2 db.next_payment_id) now3 db.next_payment_id).payments.find?
            (fun r => r.id == db.next_payment_id)
        = some (mkPaymentRow db.next_payment_id uid amount cur sty sdays method
            (isoformat now1) "completed" (some (isoformat now3)))) := by
  have hne : ∀ r ∈ db.payments,
      ((fun r : PaymentRow => r.id == db.next_payment_id) r) = false := by
    intro r hr
    have hlt := hfresh r hr
    simp only [beq_eq_false_iff_ne]
    omega
  have hpres : ∀ (now' : DT) (a : PaymentRow),
      ((if a.id == db.next_payment_id then
          { a with status := "completed", completed_at := some (isoformat now') }
        else a).id == db.next_payment_id) = (a.id == db.next_payment_id) := by
    intro now' a
    by_cases hx : (a.id == db.next_payment_id) = true <;> simp [hx]
  have hfind1 : ((db.payments ++
      [mkPaymentRow db.next_payment_id uid amount cur sty sdays method
        (isoformat now1) "pending" none]).find?
        (fun r => r.id == db.next_payment_id))
      = some (mkPaymentRow db.next_payment_id uid amount cur sty sdays method
          (isoformat now1) "pending" none) := by
    rw [find?_append_none _ _ _ hne]
    exact List.find?_cons_of_pos _ (by simp [mkPaymentRow])
  have hfind2 : (((db.payments ++
      [mkPaymentRow db.next_payment_id uid amount cur sty sdays method
        (isoformat now1) "pending" none]).map
        (fun r : PaymentRow => if r.id == db.next_payment_id then
          { r with status := "completed", completed_at := some (isoformat now2) }
          else r)).find? (fun r => r.id == db.next_payment_id))
      = some (mkPaymentRow db.next_payment_id uid amount cur sty sdays method
          (isoformat now1) "completed" (some (isoformat now2))) := by
    rw [find?_map_pres _ _ (hpres now2), hfind1]
    simp [mkPaymentRow]
  have hfind3 : ((((db.payments ++
      [mkPaymentRow db.next_payment_id uid amount cur sty sdays method
        (isoformat now1) "pending" none]).map
        (fun r : PaymentRow => if r.id == db.next_payment_id then
          { r with status := "completed", completed_at := some (isoformat now2) }
          else r)).map
        (fun r : PaymentRow => if r.id == db.next_payment_id then
          { r with status := "completed", completed_at := some (isoformat now3) }
          else r)).find? (fun r => r.id == db.next_payment_id))
      = some (mkPaymentRow db.next_payment_id uid amount cur sty sdays method
          (isoformat now1) "completed" (some (isoformat now3))) := by
    rw [find?_map_pres _ _ (hpres now3), hfind2]
    simp [mkPaymentRow]
  exact ⟨fun r hr => by
      have hlt := hfresh r hr
      show r.id ≠ db.next_payment_id
      omega,
    rfl, hfind1, hfind2, hfind3⟩

/-- C7 witness: the spec's concrete scenario — a 9.99 USD premium payment
for 30 days by user 1, created at time 2, completed at times 3 and 4. -/
theorem c7_payment_lifecycle_witness :
    (create_payment dbOne 2 1 (999 / 100 : Rat) "USD" "premium" 30 none).1 = 1
    ∧ ((create_payment dbOne 2 1 (999 / 100 : Rat) "USD" "premium" 30 none).2.payments.find?
          (fun r => r.id == 1)
        = some (mkPaymentRow 1 1 (999 / 100 : Rat) "USD" "premium" 30 none
            (isoformat 2) "pending" none))
    ∧ ((complete_payment
          (create_payment dbOne 2 1 (999 / 100 : Rat) "USD" "premium" 30 none).2
          3 1).payments.find? (fun r => r.id == 1)
        = some (mkPaymentRow 1 1 (999 / 100 : Rat) "USD" "premium" 30 none
            (isoformat 2) "completed" (some (isoformat 3))))
    ∧ ((complete_payment (complete_payment
          (create_payment dbOne 2 1 (999 / 100 : Rat) "USD" "premium" 30 none).2
          3 1) 4 1).payments.find? (fun r => r.id == 1)
        = some (mkPaymentRow 1 1 (999 / 100 : Rat) "USD" "premium" 30 none
            (isoformat 2) "completed" (some (isoformat 4)))) := by
  have h := c7_payment_lifecycle dbOne 2 3 4 1 (999 / 100 : Rat) "USD" "premium" 30 none
    (by decide)
  exact ⟨h.2.1, h.2.2.1, h.2.2.2.1, h.2.2.2.2⟩

/-- C5 (code bug evidence): on the live FastAPI route (the admin-router
handler, which shadows the one in src/api/main.py), granting a
subscription to the existing login `"alice"` with `days = 30` does not
succeed with `until = now + 30 days`: the handler passes `until` as an ISO
*string* into `Database.update_subscription`, whose SQLite branch calls
`.isoformat()` on it and raises `AttributeError`, surfaced as HTTP 500
with the store unchanged.  Without `days` the same handler succeeds with
unlimited (`until = null`) as the claim states, and the Flask facade's
handler — which passes a `datetime` — behaves exactly as claimed for
`days = 30`. -/
theorem c5_grant_subscription_crash :
    admin_grant_api dbOne 0 "alice" "premium" (some 30)
      = (.err 500 "AttributeError: str object has no attribute isoformat", dbOne)
    ∧ admin_grant_api dbOne 0 "alice" "premium" none
      = (.ok { message := "Підписку виданo користувачу Alice A",
               subscription_type := "premium", subscription_until := none },
         update_subscription dbOne 0 1 true "premium" none)
    ∧ flask_grant dbOne 0 "alice" "premium" (some 30)
      = (.ok { message := "Підписку виданo користувачу Alice A",
               subscription_type := "premium",
               subscription_until := some (isoformat (add_days 0 30)) },
         update_subscription dbOne 0 1 true "premium" (some (add_days 0 30))) := by
  refine ⟨?_, ?_, ?_⟩ <;> decide

/-- C6 (code bug evidence): on the live FastAPI route (the admin-router
handler, which shadows the one in src/api/main.py), an `until` string that
is not a valid ISO-8601 date yields HTTP 500 — not the claimed 400 —
because the handler never parses it and `Database.update_subscription`
raises `AttributeError` on the raw string; indeed even a *well-formed*
date string yields the same 500.  The user record is not modified in
either case.  The Flask facade's handler does answer 400
`"Невірний формат дати"` with the store untouched, as the claim states. -/
theorem c6_update_subscription_malformed_until :
    admin_update_subscription_api dbOne 0 1 true "premium" (some "not-a-date")
      = (.err 500 "AttributeError: str object has no attribute isoformat", dbOne)
    ∧ admin_update_subscription_api dbOne 0 1 true "premium" (some (isoformat 9))
      = (.err 500 "AttributeError: str object has no attribute isoformat", dbOne)
    ∧ flask_update_subscription dbOne 0 1 true "premium" (some "not-a-date")
      = (.err 400 "Невірний формат дати", dbOne) := by
  refine ⟨?_, ?_, ?_⟩ <;> decide

end Diia
